import Mathlib

/-!
# Verification of the newsletter subscription validator

A shallow embedding of `src/js/newsletter.js`: the email validator
(`isValidEmail` together with `EMAIL_REGEX`), the form validator
(`validateForm`), the rate limiter (`checkRateLimit`) and the submission
path (`submitForm` / `handleFormSubmit`), with theorems checking the
specification's claims against the code.

Strings are modelled as `List Char`; JS string `length` counts UTF-16
code units, which agrees with the character count on the ASCII range the
email grammar accepts.  Times are `Int` (millisecond timestamps, so that
`now - last` is exact subtraction as in JS number arithmetic).
-/

namespace Newsletter

/-- Characters the local part of `EMAIL_REGEX` accepts:
`[a-zA-Z0-9.!#$%&'*+/=?^_\x60\x7b|\x7d~-]` (the class from line 17 of
`newsletter.js`; codes 39, 96, 123, 124, 125 are the apostrophe, the
backquote, and the brace/bar characters, written numerically). -/
def isLocalChar (c : Char) : Bool :=
  c.isAlphanum || c = '.' || c = '!' || c = '#' || c = '$' || c = '%' ||
  c = '&' || c.toNat = 39 || c = '*' || c = '+' || c = '/' || c = '=' ||
  c = '?' || c = '^' || c = '_' || c.toNat = 96 || c.toNat = 123 ||
  c.toNat = 124 || c.toNat = 125 || c = '~' || c = '-'

/-- Characters allowed inside a domain label: `[a-zA-Z0-9-]`. -/
def isLabelChar (c : Char) : Bool :=
  c.isAlphanum || c = '-'

/-- One domain label of `EMAIL_REGEX`:
`[a-zA-Z0-9](?:[a-zA-Z0-9-]\x7b0,61\x7d[a-zA-Z0-9])?`, i.e. 1 to 63
characters, alphanumeric or hyphen, first and last alphanumeric. -/
def isLabel (l : List Char) : Bool :=
  decide (1 ≤ l.length) && decide (l.length ≤ 63) && l.all isLabelChar &&
  (match l.head? with
   | some c => c.isAlphanum
   | none => false) &&
  (match l.getLast? with
   | some c => c.isAlphanum
   | none => false)

/-- The domain part of `EMAIL_REGEX`: one label followed by zero or more
`.`-separated labels.  Splitting on `'.'` yields exactly the labels (no
label contains a dot), and an empty piece — leading, trailing or doubled
dot, or an empty domain — fails `isLabel`. -/
def matchesDomain (d : List Char) : Bool :=
  (d.splitOn '.').all isLabel

/-- Models `EMAIL_REGEX.test`: the whole string is `local+ '@' domain`.  Since
`'@'` is neither a local-part character nor a domain character, a match
has exactly one `'@'`; the part before the first `'@'` must be a
non-empty run of local-part characters and the part after it must match
the domain grammar. -/
def matchesEmailRegex (s : List Char) : Bool :=
  match s.dropWhile (fun c => c ≠ '@') with
  | '@' :: domain =>
      let lp := s.takeWhile (fun c => c ≠ '@')
      !lp.isEmpty && lp.all isLocalChar && matchesDomain domain
  | _ => false

/-- Models `email.includes('..')`. -/
def containsDoubleDot : List Char → Bool
  | '.' :: '.' :: _ => true
  | _ :: rest => containsDoubleDot rest
  | [] => false

/-- Models `email.split('@')[0]`: the substring before the first `'@'` (the
whole string when there is no `'@'`). -/
def localPart (s : List Char) : List Char :=
  s.takeWhile (fun c => c ≠ '@')

/-- Function `isValidEmail` from `newsletter.js` lines 242-269, on a string value
(`typeof email === 'string'` already holds; the non-string guard is
`isValidEmailJS` below).  `!email` is true exactly for the empty
string. -/
def isValidEmail (email : List Char) : Bool :=
  if email.isEmpty then false
  else if 254 < email.length then false
  else if !matchesEmailRegex email then false
  else if containsDoubleDot email then false
  else if 64 < (localPart email).length then false
  else true

/-- A JavaScript value, as far as `isValidEmail`'s guard
`!email || typeof email !== 'string'` observes it. -/
inductive JSValue where
  | nullV : JSValue
  | undefinedV : JSValue
  | str : List Char → JSValue
  | num : Int → JSValue
  | boolV : Bool → JSValue
  | objV : JSValue
deriving DecidableEq

/-- Models `typeof v === 'string'`. -/
def jsIsString : JSValue → Bool
  | .str _ => true
  | _ => false

/-- Function `isValidEmail` as exposed on `window.Newsletter.validateEmail`:
lines 242-245 reject any value that is falsy or not a string before the
string checks run. -/
def isValidEmailJS : JSValue → Bool
  | .str s => isValidEmail s
  | _ => false

/-- Whitespace characters removed by `String.prototype.trim` (the ASCII
ones; the email grammar and all inputs in scope are ASCII). -/
def jsWhitespace (c : Char) : Bool :=
  c = ' ' || c = '\t' || c = '\n' || c = '\r' || c.toNat = 11 || c.toNat = 12

/-- Models `s.trim()`: drop leading and trailing whitespace. -/
def jsTrim (s : List Char) : List Char :=
  ((s.dropWhile jsWhitespace).reverse.dropWhile jsWhitespace).reverse

/-- The validation error kinds `validateForm` can report, named as in
§7 of the spec; `validateForm` maps them to the messages
`EMPTY_EMAIL`, `INVALID_EMAIL` and `PRIVACY_NOT_ACCEPTED`. -/
inductive ValidationError where
  | EmptyEmail : ValidationError
  | InvalidEmailFormat : ValidationError
  | ConsentRequired : ValidationError
deriving DecidableEq

/-- The raw field values `validateForm` reads from the DOM:
`emailInput.value`, whether a `[data-newsletter-privacy]` checkbox is
present on this form instance, and whether it is checked. -/
structure FormInput where
  emailValue : List Char
  hasConsentField : Bool
  consentChecked : Bool
deriving DecidableEq

/-- The normalized data a successful validation returns
(`newsletter.js` lines 227-234): trimmed email, `Date.now()` timestamp,
fixed source tag. -/
structure ValidData where
  email : List Char
  timestamp : Int
  source : List Char
deriving DecidableEq

/-- Function `validateForm` from `newsletter.js` lines 200-235: empty check on
the trimmed email, then format check, then the privacy checkbox (only
when present); the first failing check's error is returned alone. -/
def validateForm (inp : FormInput) (now : Int) :
    Except ValidationError ValidData :=
  let email := jsTrim inp.emailValue
  if email.isEmpty then
    .error .EmptyEmail
  else if !isValidEmail email then
    .error .InvalidEmailFormat
  else if inp.hasConsentField && !inp.consentChecked then
    .error .ConsentRequired
  else
    .ok ⟨email, now, "landing_page".data⟩

/-- The mutable module state of `newsletter.js` (lines 20-27), without
the DOM-only `isInitialized` flag. -/
structure NState where
  isSubmitting : Bool
  lastSubmissionTime : Int
  submissionCount : Nat
  rateLimitWindow : Int
  maxSubmissionsPerWindow : Nat
deriving DecidableEq

/-- The state created at startup: `isSubmitting: false`,
`lastSubmissionTime: 0`, `submissionCount: 0`,
`rateLimitWindow: 60000`, `maxSubmissionsPerWindow: 3`. -/
def initialState : NState :=
  ⟨false, 0, 0, 60000, 3⟩

/-- Function `checkRateLimit` from `newsletter.js` lines 275-290.  It reads
`Date.now()` (`now` here), eagerly resets `state.submissionCount` to 0
when the window has elapsed since the last submission, and then accepts
iff the count is below the maximum.  Returns the accept flag together
with the (possibly reset) state. -/
def checkRateLimit (st : NState) (now : Int) : Bool × NState :=
  let timeSinceLastSubmission := now - st.lastSubmissionTime
  let st1 :=
    if st.rateLimitWindow < timeSinceLastSubmission then
      { st with submissionCount := 0 }
    else st
  if st1.maxSubmissionsPerWindow ≤ st1.submissionCount then (false, st1)
  else (true, st1)

/-- How the transport call (`simulateApiCall`, or a real network call)
settles: it resolves with `success: true`, resolves with
`success: false`, or rejects (throws into the `catch` block). -/
inductive Outcome where
  | success : Outcome
  | failure : Outcome
  | thrown : Outcome
deriving DecidableEq

/-- What a submission attempt reports back to the page. -/
inductive SubmitResult where
  | inFlight : SubmitResult
  | invalid : ValidationError → SubmitResult
  | rateLimited : SubmitResult
  | ok : SubmitResult
  | apiError : SubmitResult
  | networkError : SubmitResult
deriving DecidableEq

/-- Function `submitForm` from `newsletter.js` lines 296-322, as a state
transformer.  It sets `isSubmitting`, awaits the transport (the
`outcome` parameter says how that call settles, `nowDone` is
`Date.now()` at resumption), and on any *resolved* response — success
or failure alike — runs lines 307-308: `state.lastSubmissionTime =
Date.now(); state.submissionCount++`.  Only a *thrown* error skips
those lines.  The `finally` block clears `isSubmitting`
unconditionally. -/
def submitForm (st : NState) (nowDone : Int) (outcome : Outcome) :
    SubmitResult × NState :=
  match outcome with
  | .success =>
      (.ok,
       { st with
          lastSubmissionTime := nowDone
          submissionCount := st.submissionCount + 1
          isSubmitting := false })
  | .failure =>
      (.apiError,
       { st with
          lastSubmissionTime := nowDone
          submissionCount := st.submissionCount + 1
          isSubmitting := false })
  | .thrown =>
      (.networkError, { st with isSubmitting := false })

/-- One run of `handleFormSubmit` (`newsletter.js` lines 159-194),
composed with the `submitForm` it launches.  `now` is `Date.now()` when
the handler runs, `nowDone` is `Date.now()` when the transport settles.
The third component counts how many times the transport
(`simulateApiCall`) was invoked during this run. -/
def handleFormSubmit (st : NState) (inp : FormInput) (now nowDone : Int)
    (outcome : Outcome) : SubmitResult × NState × Nat :=
  if st.isSubmitting then
    (.inFlight, st, 0)
  else
    match validateForm inp now with
    | .error e => (.invalid e, st, 0)
    | .ok _ =>
        let c := checkRateLimit st now
        if c.1 then
          ((submitForm { c.2 with isSubmitting := true } nowDone outcome).1,
           (submitForm { c.2 with isSubmitting := true } nowDone outcome).2,
           1)
        else
          (.rateLimited, c.2, 0)

/-- A well-formed input used in concrete runs. -/
def goodInput : FormInput :=
  ⟨"user@example.com".data, true, true⟩

/-! ## Helper lemmas -/

theorem mem_of_jsTrim_eq_nil {s : List Char} (h : jsTrim s = []) :
    ∀ c ∈ s, jsWhitespace c = true := by
  intro c hc
  unfold jsTrim at h
  rw [List.reverse_eq_nil_iff, List.dropWhile_eq_nil_iff] at h
  rcases List.mem_append.mp
      ((List.takeWhile_append_dropWhile (p := jsWhitespace) (l := s)) ▸ hc) with
    h1 | h2
  · exact List.mem_takeWhile_imp h1
  · exact h _ (List.mem_reverse.mpr h2)

theorem jsWhitespace_ne_at {c : Char} (h : jsWhitespace c = true) :
    c ≠ '@' := by
  intro heq
  rw [heq] at h
  exact absurd h (by decide)

theorem matchesEmailRegex_eq_false_of_no_at {s : List Char}
    (h : ∀ c ∈ s, c ≠ '@') : matchesEmailRegex s = false := by
  have hd : s.dropWhile (fun c => c ≠ '@') = [] := by
    rw [List.dropWhile_eq_nil_iff]
    intro x hx
    simpa using h x hx
  unfold matchesEmailRegex
  rw [hd]

theorem isValidEmail_eq_true_iff (s : List Char) :
    isValidEmail s = true ↔
      s ≠ [] ∧ s.length ≤ 254 ∧ matchesEmailRegex s = true ∧
      containsDoubleDot s = false ∧ (localPart s).length ≤ 64 := by
  unfold isValidEmail
  split_ifs with h1 h2 h3 h4 h5 <;>
    simp_all [List.isEmpty_iff]

/-! ## Claim theorems -/

/-- C2: `validateEmail` returns false on every candidate that is empty
after trimming, or longer than 254 characters, or whose local part (the
substring before the first `@`) is longer than 64 characters, or that
contains `..`, or that has no `@`, or that fails the email grammar
(`EMAIL_REGEX`: local-part characters, `@`, dot-separated domain labels
of 1-63 alphanumeric-or-hyphen characters not starting or ending with a
hyphen). -/
theorem validateEmail_rejects (s : List Char)
    (h : jsTrim s = [] ∨ 254 < s.length ∨ 64 < (localPart s).length ∨
         containsDoubleDot s = true ∨ '@' ∉ s ∨
         matchesEmailRegex s = false) :
    isValidEmail s = false := by
  rw [Bool.eq_false_iff]
  intro htrue
  obtain ⟨-, hlen, hregex, hdots, hlocal⟩ :=
    (isValidEmail_eq_true_iff s).mp htrue
  rcases h with h | h | h | h | h | h
  · have hws := mem_of_jsTrim_eq_nil h
    have : matchesEmailRegex s = false :=
      matchesEmailRegex_eq_false_of_no_at
        (fun c hc => jsWhitespace_ne_at (hws c hc))
    simp [this] at hregex
  · omega
  · omega
  · simp [h] at hdots
  · have : matchesEmailRegex s = false :=
      matchesEmailRegex_eq_false_of_no_at
        (fun c hc heq => h (heq ▸ hc))
    simp [this] at hregex
  · simp [h] at hregex

theorem validateEmail_rejects_witness :
    isValidEmail "not-an-email".data = false :=
  validateEmail_rejects "not-an-email".data
    (Or.inr (Or.inr (Or.inr (Or.inr (Or.inl (by decide))))))

/-- C9: the literal boundary cases — `"user@example.com"` is accepted,
`"user..name@example.com"` and `""` are rejected, and `"a@b"` is
accepted (a single-label domain passes `EMAIL_REGEX`). -/
theorem validateEmail_literals :
    isValidEmail "user@example.com".data = true ∧
    isValidEmail "user..name@example.com".data = false ∧
    isValidEmail "".data = false ∧
    isValidEmail "a@b".data = true := by
  refine ⟨by decide, by decide, by decide, by decide⟩

/-- C10: `window.Newsletter.validateEmail` is total at the public
interface: any value that is `null`, `undefined` or not a string yields
`false` (the guard on lines 243-245 returns rather than throwing), and
every call returns a boolean. -/
theorem validateEmailJS_total (v : JSValue) :
    ((v = JSValue.nullV ∨ v = JSValue.undefinedV ∨ jsIsString v = false) →
      isValidEmailJS v = false) ∧
    (isValidEmailJS v = false ∨ isValidEmailJS v = true) := by
  constructor
  · intro h
    rcases h with rfl | rfl | h
    · rfl
    · rfl
    · cases v <;> simp_all [jsIsString, isValidEmailJS]
  · exact (Bool.eq_false_or_eq_true _).symm

/-- C3: `validateForm` checks email presence, then email format, then
the consent box (only when the form has one), and reports exactly the
first failing check: `EmptyEmail` iff the trimmed email is blank,
`InvalidEmailFormat` iff it is non-blank but invalid, and
`ConsentRequired` iff the email is valid, a consent field is present
and unchecked. -/
theorem validateForm_first_error (inp : FormInput) (now : Int) :
    (validateForm inp now = .error .EmptyEmail ↔
      jsTrim inp.emailValue = []) ∧
    (validateForm inp now = .error .InvalidEmailFormat ↔
      jsTrim inp.emailValue ≠ [] ∧
      isValidEmail (jsTrim inp.emailValue) = false) ∧
    (validateForm inp now = .error .ConsentRequired ↔
      jsTrim inp.emailValue ≠ [] ∧
      isValidEmail (jsTrim inp.emailValue) = true ∧
      inp.hasConsentField = true ∧ inp.consentChecked = false) := by
  by_cases hE : jsTrim inp.emailValue = []
  · simp [validateForm, List.isEmpty_iff, hE]
  · cases hV : isValidEmail (jsTrim inp.emailValue) with
    | false => simp [validateForm, List.isEmpty_iff, hE, hV]
    | true =>
        cases hF : inp.hasConsentField with
        | false => simp [validateForm, List.isEmpty_iff, hE, hV, hF]
        | true =>
            cases hC : inp.consentChecked with
            | false => simp [validateForm, List.isEmpty_iff, hE, hV, hF, hC]
            | true => simp [validateForm, List.isEmpty_iff, hE, hV, hF, hC]

theorem checkRateLimit_snd (st : NState) (now : Int) :
    (checkRateLimit st now).2 =
      if st.rateLimitWindow < now - st.lastSubmissionTime then
        { st with submissionCount := 0 }
      else st := by
  simp only [checkRateLimit]
  split_ifs <;> rfl

theorem checkRateLimit_reject_iff (st : NState) (now : Int) :
    (checkRateLimit st now).1 = false ↔
      st.maxSubmissionsPerWindow ≤
        (if st.rateLimitWindow < now - st.lastSubmissionTime then 0
         else st.submissionCount) := by
  simp only [checkRateLimit]
  split_ifs <;> simp_all

theorem checkRateLimit_count_le (st : NState) (now : Int) :
    (checkRateLimit st now).2.submissionCount ≤ st.submissionCount := by
  rw [checkRateLimit_snd]
  split_ifs <;> simp

theorem checkRateLimit_isSubmitting (st : NState) (now : Int) :
    (checkRateLimit st now).2.isSubmitting = st.isSubmitting := by
  rw [checkRateLimit_snd]
  split_ifs <;> rfl

theorem handleFormSubmit_cases (st : NState) (inp : FormInput)
    (now nowDone : Int) (o : Outcome) :
    (st.isSubmitting = true ∧
      handleFormSubmit st inp now nowDone o = (.inFlight, st, 0)) ∨
    (st.isSubmitting = false ∧ (∃ e, validateForm inp now = .error e ∧
      handleFormSubmit st inp now nowDone o = (.invalid e, st, 0))) ∨
    (st.isSubmitting = false ∧ (∃ d, validateForm inp now = .ok d) ∧
      (checkRateLimit st now).1 = false ∧
      handleFormSubmit st inp now nowDone o =
        (.rateLimited, (checkRateLimit st now).2, 0)) ∨
    (st.isSubmitting = false ∧ (∃ d, validateForm inp now = .ok d) ∧
      (checkRateLimit st now).1 = true ∧
      handleFormSubmit st inp now nowDone o =
        ((submitForm
            { (checkRateLimit st now).2 with isSubmitting := true }
            nowDone o).1,
         (submitForm
            { (checkRateLimit st now).2 with isSubmitting := true }
            nowDone o).2, 1)) := by
  by_cases hs : st.isSubmitting = true
  · left
    exact ⟨hs, by simp [handleFormSubmit, hs]⟩
  · rw [Bool.not_eq_true] at hs
    cases hv : validateForm inp now with
    | error e =>
        right; left
        refine ⟨hs, e, ?_, by simp [handleFormSubmit, hs, hv]⟩
        first
        | exact hv
        | rfl
    | ok d =>
        cases hb : (checkRateLimit st now).1 with
        | false =>
            right; right; left
            refine ⟨hs, ⟨d, ?_⟩, ?_, by simp [handleFormSubmit, hs, hv, hb]⟩
            · first
              | exact hv
              | rfl
            · first
              | exact hb
              | rfl
        | true =>
            right; right; right
            refine ⟨hs, ⟨d, ?_⟩, ?_, by simp [handleFormSubmit, hs, hv, hb]⟩
            · first
              | exact hv
              | rfl
            · first
              | exact hb
              | rfl

theorem submitForm_count (st : NState) (nowDone : Int) (o : Outcome) :
    ((submitForm st nowDone o).2).submissionCount =
      if o = .thrown then st.submissionCount
      else st.submissionCount + 1 := by
  cases o <;> rfl

theorem submitForm_guard_false (st : NState) (nowDone : Int)
    (o : Outcome) :
    ((submitForm st nowDone o).2).isSubmitting = false := by
  cases o <;> rfl

theorem validateEmailJS_total_witness :
    isValidEmailJS JSValue.nullV = false ∧
    isValidEmailJS JSValue.undefinedV = false ∧
    isValidEmailJS (JSValue.num 7) = false :=
  ⟨(validateEmailJS_total JSValue.nullV).1 (Or.inl rfl),
   (validateEmailJS_total JSValue.undefinedV).1 (Or.inr (Or.inl rfl)),
   (validateEmailJS_total (JSValue.num 7)).1 (Or.inr (Or.inr rfl))⟩

/-- C4: `checkRateLimit` rejects (returns `false`) exactly when the
submission count — taken as 0 if the window has elapsed since the last
submission — has reached `maxSubmissionsPerWindow`; the check itself
never increments the counter (it can only lazily reset it), the
transport runs only when the check accepts, and the counter increment
is performed by the caller after the transport call completes without
throwing. -/
theorem checkRateLimit_spec (st : NState) (now : Int) :
    ((checkRateLimit st now).1 = false ↔
      st.maxSubmissionsPerWindow ≤
        (if st.rateLimitWindow < now - st.lastSubmissionTime then 0
         else st.submissionCount)) ∧
    ((checkRateLimit st now).2.submissionCount ≤ st.submissionCount) ∧
    (∀ inp nowDone outcome,
      (handleFormSubmit st inp now nowDone outcome).2.2 = 1 →
        (checkRateLimit st now).1 = true) ∧
    (∀ inp nowDone outcome, outcome ≠ Outcome.thrown →
      (handleFormSubmit st inp now nowDone outcome).2.2 = 1 →
      ((handleFormSubmit st inp now nowDone outcome).2.1).submissionCount =
        (checkRateLimit st now).2.submissionCount + 1) ∧
    (∀ inp nowDone outcome,
      (handleFormSubmit st inp now nowDone outcome).2.2 = 0 →
      ((handleFormSubmit st inp now nowDone outcome).2.1).submissionCount ≤
        st.submissionCount) := by
  refine ⟨checkRateLimit_reject_iff st now, checkRateLimit_count_le st now,
    ?_, ?_, ?_⟩
  · intro inp nowDone outcome hinv
    rcases handleFormSubmit_cases st inp now nowDone outcome with
      ⟨_, heq⟩ | ⟨_, _, _, heq⟩ | ⟨_, _, _, heq⟩ | ⟨_, _, hacc, _⟩
    · rw [heq] at hinv; simp at hinv
    · rw [heq] at hinv; simp at hinv
    · rw [heq] at hinv; simp at hinv
    · exact hacc
  · intro inp nowDone outcome ho hinv
    rcases handleFormSubmit_cases st inp now nowDone outcome with
      ⟨_, heq⟩ | ⟨_, _, _, heq⟩ | ⟨_, _, _, heq⟩ | ⟨_, _, _, heq⟩
    · rw [heq] at hinv; simp at hinv
    · rw [heq] at hinv; simp at hinv
    · rw [heq] at hinv; simp at hinv
    · rw [heq]
      rw [submitForm_count, if_neg ho]
  · intro inp nowDone outcome hinv
    rcases handleFormSubmit_cases st inp now nowDone outcome with
      ⟨_, heq⟩ | ⟨_, _, _, heq⟩ | ⟨_, _, _, heq⟩ | ⟨_, _, _, heq⟩
    · rw [heq]
    · rw [heq]
    · rw [heq]
      exact checkRateLimit_count_le st now
    · rw [heq] at hinv; simp at hinv

theorem checkRateLimit_spec_witness :
    (checkRateLimit initialState 50).1 = true ∧
    ((handleFormSubmit initialState goodInput 50 60
        Outcome.success).2.1).submissionCount =
      (checkRateLimit initialState 50).2.submissionCount + 1 ∧
    ((handleFormSubmit initialState ⟨"".data, true, true⟩ 50 60
        Outcome.success).2.1).submissionCount ≤
      initialState.submissionCount :=
  ⟨(checkRateLimit_spec initialState 50).2.2.1 goodInput 60
      Outcome.success (by decide),
   (checkRateLimit_spec initialState 50).2.2.2.1 goodInput 60
      Outcome.success (by decide) (by decide),
   (checkRateLimit_spec initialState 50).2.2.2.2 ⟨"".data, true, true⟩ 60
      Outcome.success (by decide)⟩

/-- C6: while a submission is in flight (`isSubmitting` set), a
concurrent form-submit run is rejected immediately: it returns the
local in-flight result, leaves the state untouched, and performs zero
transport (`simulateApiCall`) invocations. -/
theorem singleFlight_guard (st : NState) (inp : FormInput)
    (now nowDone : Int) (outcome : Outcome)
    (h : st.isSubmitting = true) :
    handleFormSubmit st inp now nowDone outcome =
      (SubmitResult.inFlight, st, 0) := by
  simp [handleFormSubmit, h]

theorem singleFlight_guard_witness :
    handleFormSubmit ⟨true, 0, 0, 60000, 3⟩ goodInput 10 20
        Outcome.success =
      (SubmitResult.inFlight, ⟨true, 0, 0, 60000, 3⟩, 0) :=
  singleFlight_guard ⟨true, 0, 0, 60000, 3⟩ goodInput 10 20
    Outcome.success rfl

/-- C7: the in-flight guard is released unconditionally when the
transport call settles — whether it resolves with success, resolves
with failure, or throws — so no submission run ends with
`isSubmitting` still set. -/
theorem guard_released (st : NState) (nowDone : Int)
    (outcome : Outcome) :
    ((submitForm st nowDone outcome).2).isSubmitting = false ∧
    (st.isSubmitting = false → ∀ inp now,
      ((handleFormSubmit st inp now nowDone outcome).2.1).isSubmitting =
        false) := by
  constructor
  · exact submitForm_guard_false st nowDone outcome
  · intro hs inp now
    rcases handleFormSubmit_cases st inp now nowDone outcome with
      ⟨hs', _⟩ | ⟨_, _, _, heq⟩ | ⟨_, _, _, heq⟩ | ⟨_, _, _, heq⟩
    · rw [hs] at hs'; exact absurd hs' (by decide)
    · rw [heq]; exact hs
    · rw [heq]
      rw [checkRateLimit_isSubmitting]
      exact hs
    · rw [heq]
      exact submitForm_guard_false _ nowDone outcome

theorem guard_released_witness :
    ((submitForm initialState 5 Outcome.thrown).2).isSubmitting =
      false ∧
    ((handleFormSubmit initialState goodInput 1 2
        Outcome.failure).2.1).isSubmitting = false :=
  ⟨(guard_released initialState 5 Outcome.thrown).1,
   (guard_released initialState 2 Outcome.failure).2 rfl goodInput 1⟩

/-- C8: the lazy-reset invariant — whenever `checkRateLimit` observes
`now - lastSubmissionTime > windowMs` it resets `submissionCount` to 0
(at check time, not by a timer) — and the bound: when the check
accepts, the checked count is strictly below the maximum, so any
accepted submission ends with `submissionCount ≤
maxSubmissionsPerWindow`. -/
theorem rateLimit_invariants (st : NState) (now : Int) :
    (st.rateLimitWindow < now - st.lastSubmissionTime →
      (checkRateLimit st now).2.submissionCount = 0) ∧
    ((checkRateLimit st now).1 = true →
      (checkRateLimit st now).2.submissionCount <
        st.maxSubmissionsPerWindow) ∧
    (∀ inp nowDone outcome,
      (handleFormSubmit st inp now nowDone outcome).2.2 = 1 →
      ((handleFormSubmit st inp now nowDone outcome).2.1).submissionCount ≤
        st.maxSubmissionsPerWindow) := by
  have hsnd := checkRateLimit_snd st now
  refine ⟨?_, ?_, ?_⟩
  · intro hwin
    rw [hsnd, if_pos hwin]
  · intro hacc
    have hiff := checkRateLimit_reject_iff st now
    have : ¬ st.maxSubmissionsPerWindow ≤
        (if st.rateLimitWindow < now - st.lastSubmissionTime then 0
         else st.submissionCount) := by
      intro hle
      rw [← hiff] at hle
      rw [hacc] at hle
      exact absurd hle (by decide)
    rw [hsnd]
    split_ifs with hw
    · rw [if_pos hw] at this
      simpa using Nat.lt_of_not_le this
    · rw [if_neg hw] at this
      exact Nat.lt_of_not_le this
  · intro inp nowDone outcome hinv
    rcases handleFormSubmit_cases st inp now nowDone outcome with
      ⟨_, heq⟩ | ⟨_, _, _, heq⟩ | ⟨_, _, _, heq⟩ | ⟨_, _, hacc, heq⟩
    · rw [heq] at hinv; simp at hinv
    · rw [heq] at hinv; simp at hinv
    · rw [heq] at hinv; simp at hinv
    · have hlt : (checkRateLimit st now).2.submissionCount <
          st.maxSubmissionsPerWindow := by
        have hiff := checkRateLimit_reject_iff st now
        have : ¬ st.maxSubmissionsPerWindow ≤
            (if st.rateLimitWindow < now - st.lastSubmissionTime then 0
             else st.submissionCount) := by
          intro hle
          rw [← hiff] at hle
          rw [hacc] at hle
          exact absurd hle (by decide)
        rw [hsnd]
        split_ifs with hw
        · rw [if_pos hw] at this
          simpa using Nat.lt_of_not_le this
        · rw [if_neg hw] at this
          exact Nat.lt_of_not_le this
      rw [heq]
      rw [submitForm_count]
      split_ifs <;> simp <;> omega

theorem validateForm_goodInput (now : Int) :
    validateForm goodInput now =
      Except.ok ⟨"user@example.com".data, now, "landing_page".data⟩ :=
  rfl

theorem checkRateLimit_accept_of_recent (st : NState) (now : Int)
    (hwin : now - st.lastSubmissionTime ≤ st.rateLimitWindow)
    (hcnt : st.submissionCount < st.maxSubmissionsPerWindow) :
    checkRateLimit st now = (true, st) := by
  simp only [checkRateLimit]
  have hw : ¬ st.rateLimitWindow < now - st.lastSubmissionTime := by omega
  rw [if_neg hw]
  have hc : ¬ st.maxSubmissionsPerWindow ≤ st.submissionCount := by omega
  rw [if_neg hc]

theorem checkRateLimit_reject_of_recent (st : NState) (now : Int)
    (hwin : now - st.lastSubmissionTime ≤ st.rateLimitWindow)
    (hcnt : st.maxSubmissionsPerWindow ≤ st.submissionCount) :
    checkRateLimit st now = (false, st) := by
  simp only [checkRateLimit]
  have hw : ¬ st.rateLimitWindow < now - st.lastSubmissionTime := by omega
  rw [if_neg hw]
  rw [if_pos hcnt]

theorem checkRateLimit_accept_of_elapsed (st : NState) (now : Int)
    (hwin : st.rateLimitWindow < now - st.lastSubmissionTime)
    (hmax : 0 < st.maxSubmissionsPerWindow) :
    checkRateLimit st now = (true, { st with submissionCount := 0 }) := by
  simp only [checkRateLimit]
  rw [if_pos hwin]
  have hc : ¬ st.maxSubmissionsPerWindow ≤
      ({ st with submissionCount := 0 } : NState).submissionCount := by
    simp
    omega
  rw [if_neg hc]

theorem checkRateLimit_accept_of_zero (st : NState) (now : Int)
    (h0 : st.submissionCount = 0)
    (hmax : 0 < st.maxSubmissionsPerWindow) :
    checkRateLimit st now = (true, st) := by
  obtain ⟨a, tl, cnt, w, m⟩ := st
  simp only at h0 hmax
  subst h0
  simp only [checkRateLimit]
  split_ifs <;> simp_all

theorem step_success (st : NState) (now nowDone : Int)
    (hs : st.isSubmitting = false)
    (hchk : checkRateLimit st now = (true, st)) :
    handleFormSubmit st goodInput now nowDone Outcome.success =
      (SubmitResult.ok,
       ⟨false, nowDone, st.submissionCount + 1, st.rateLimitWindow,
        st.maxSubmissionsPerWindow⟩, 1) := by
  simp [handleFormSubmit, hs, validateForm_goodInput, hchk, submitForm]

theorem step_failure (st : NState) (now nowDone : Int)
    (hs : st.isSubmitting = false)
    (hchk : checkRateLimit st now = (true, st)) :
    handleFormSubmit st goodInput now nowDone Outcome.failure =
      (SubmitResult.apiError,
       ⟨false, nowDone, st.submissionCount + 1, st.rateLimitWindow,
        st.maxSubmissionsPerWindow⟩, 1) := by
  simp [handleFormSubmit, hs, validateForm_goodInput, hchk, submitForm]

theorem rateLimit_invariants_witness :
    (checkRateLimit ⟨false, 0, 2, 60000, 3⟩ 70000).2.submissionCount =
      0 ∧
    ((handleFormSubmit initialState goodInput 100 200
        Outcome.success).2.1).submissionCount ≤
      initialState.maxSubmissionsPerWindow :=
  ⟨(rateLimit_invariants ⟨false, 0, 2, 60000, 3⟩ 70000).1 (by decide),
   (rateLimit_invariants initialState 100).2.2 goodInput 200
      Outcome.success (by decide)⟩

/-- C5 as stated is false on the code: three accepted submissions at
1000, 2000 and 3000 ms, then a check at 61500 ms — more than
`windowMs = 60000` past the FIRST submission — is still rejected,
because `checkRateLimit` measures the window from
`lastSubmissionTime` (3000), and 61500 - 3000 = 58500 ≤ 60000. -/
theorem rateLimit_window_cex :
    (60000 < (61500 : Int) - 1000) ∧
    (checkRateLimit
        ((handleFormSubmit
            ((handleFormSubmit
                ((handleFormSubmit initialState goodInput 1000 1000
                    Outcome.success).2.1)
                goodInput 2000 2000 Outcome.success).2.1)
            goodInput 3000 3000 Outcome.success).2.1)
        61500).1 = false :=
  ⟨by decide, by decide⟩

/-- C5 (amended): with `maxPerWindow = 3`, `windowMs = 60000`, three
accepted submissions within one window are followed by a rejection of a
fourth attempt in the same window; a subsequent submission is accepted
again once more than `windowMs` has elapsed since the LAST of the three
submissions (the code resets the window from `lastSubmissionTime`, not
from the first submission). -/
theorem rateLimit_window_scenario (t1 d1 t2 d2 t3 d3 t4 : Int)
    (h1 : t1 ≤ d1) (h2 : d1 ≤ t2) (h3 : t2 ≤ d2) (h4 : d2 ≤ t3)
    (h5 : t3 ≤ d3) (h6 : d3 ≤ t4) (h7 : t4 - t1 ≤ 60000) :
    (handleFormSubmit initialState goodInput t1 d1 Outcome.success).1 =
      SubmitResult.ok ∧
    (handleFormSubmit
        ((handleFormSubmit initialState goodInput t1 d1
            Outcome.success).2.1)
        goodInput t2 d2 Outcome.success).1 = SubmitResult.ok ∧
    (handleFormSubmit
        ((handleFormSubmit
            ((handleFormSubmit initialState goodInput t1 d1
                Outcome.success).2.1)
            goodInput t2 d2 Outcome.success).2.1)
        goodInput t3 d3 Outcome.success).1 = SubmitResult.ok ∧
    (checkRateLimit
        ((handleFormSubmit
            ((handleFormSubmit
                ((handleFormSubmit initialState goodInput t1 d1
                    Outcome.success).2.1)
                goodInput t2 d2 Outcome.success).2.1)
            goodInput t3 d3 Outcome.success).2.1)
        t4).1 = false ∧
    (∀ t5 : Int, 60000 < t5 - d3 →
      (checkRateLimit
          ((handleFormSubmit
              ((handleFormSubmit
                  ((handleFormSubmit initialState goodInput t1 d1
                      Outcome.success).2.1)
                  goodInput t2 d2 Outcome.success).2.1)
              goodInput t3 d3 Outcome.success).2.1)
          t5).1 = true) := by
  have e1 : handleFormSubmit initialState goodInput t1 d1
      Outcome.success =
      (SubmitResult.ok, (⟨false, d1, 1, 60000, 3⟩ : NState), 1) :=
    step_success initialState t1 d1 rfl
      (checkRateLimit_accept_of_zero initialState t1 rfl (by decide))
  have e2 : handleFormSubmit (⟨false, d1, 1, 60000, 3⟩ : NState)
      goodInput t2 d2 Outcome.success =
      (SubmitResult.ok, (⟨false, d2, 2, 60000, 3⟩ : NState), 1) :=
    step_success (⟨false, d1, 1, 60000, 3⟩ : NState) t2 d2 rfl
      (checkRateLimit_accept_of_recent (⟨false, d1, 1, 60000, 3⟩ : NState)
        t2 (by change t2 - d1 ≤ 60000; omega)
        (by change (1 : Nat) < 3; decide))
  have e3 : handleFormSubmit (⟨false, d2, 2, 60000, 3⟩ : NState)
      goodInput t3 d3 Outcome.success =
      (SubmitResult.ok, (⟨false, d3, 3, 60000, 3⟩ : NState), 1) :=
    step_success (⟨false, d2, 2, 60000, 3⟩ : NState) t3 d3 rfl
      (checkRateLimit_accept_of_recent (⟨false, d2, 2, 60000, 3⟩ : NState)
        t3 (by change t3 - d2 ≤ 60000; omega)
        (by change (2 : Nat) < 3; decide))
  refine ⟨?_, ?_, ?_, ?_, ?_⟩
  · simp only [e1]
  · simp only [e1, e2]
  · simp only [e1, e2, e3]
  · simp only [e1, e2, e3]
    rw [checkRateLimit_reject_of_recent (⟨false, d3, 3, 60000, 3⟩ : NState)
      t4 (by change t4 - d3 ≤ 60000; omega)
      (by change (3 : Nat) ≤ 3; decide)]
  · intro t5 ht5
    simp only [e1, e2, e3]
    rw [checkRateLimit_accept_of_elapsed (⟨false, d3, 3, 60000, 3⟩ : NState)
      t5 (by change 60000 < t5 - d3; exact ht5)
      (by change (0 : Nat) < 3; decide)]

theorem rateLimit_window_scenario_witness :
    (checkRateLimit
        ((handleFormSubmit
            ((handleFormSubmit
                ((handleFormSubmit initialState goodInput 1000 1000
                    Outcome.success).2.1)
                goodInput 2000 2000 Outcome.success).2.1)
            goodInput 3000 3000 Outcome.success).2.1)
        4000).1 = false ∧
    (checkRateLimit
        ((handleFormSubmit
            ((handleFormSubmit
                ((handleFormSubmit initialState goodInput 1000 1000
                    Outcome.success).2.1)
                goodInput 2000 2000 Outcome.success).2.1)
            goodInput 3000 3000 Outcome.success).2.1)
        70000).1 = true :=
  ⟨(rateLimit_window_scenario 1000 1000 2000 2000 3000 3000 4000
      (by decide) (by decide) (by decide) (by decide) (by decide)
      (by decide) (by decide)).2.2.2.1,
   (rateLimit_window_scenario 1000 1000 2000 2000 3000 3000 4000
      (by decide) (by decide) (by decide) (by decide) (by decide)
      (by decide) (by decide)).2.2.2.2 70000 (by decide)⟩

/-- C1 as stated is false on the code: `submitForm` runs
`state.lastSubmissionTime = Date.now(); state.submissionCount++`
(lines 307-308) before looking at `response.success`, so a transport
call that settles with a failure result still mutates the rate-limit
state.  Three failing submissions at 1000, 2000, 3000 ms drive
`submissionCount` to 3, and a fourth attempt at 4000 ms — inside the
same window — is rejected by `checkRateLimit`, not accepted. -/
theorem transport_failure_cex :
    (handleFormSubmit initialState goodInput 1000 1100
        Outcome.failure).1 = SubmitResult.apiError ∧
    (handleFormSubmit
        ((handleFormSubmit initialState goodInput 1000 1100
            Outcome.failure).2.1)
        goodInput 2000 2100 Outcome.failure).1 =
      SubmitResult.apiError ∧
    (handleFormSubmit
        ((handleFormSubmit
            ((handleFormSubmit initialState goodInput 1000 1100
                Outcome.failure).2.1)
            goodInput 2000 2100 Outcome.failure).2.1)
        goodInput 3000 3100 Outcome.failure).1 =
      SubmitResult.apiError ∧
    ((handleFormSubmit
        ((handleFormSubmit
            ((handleFormSubmit initialState goodInput 1000 1100
                Outcome.failure).2.1)
            goodInput 2000 2100 Outcome.failure).2.1)
        goodInput 3000 3100 Outcome.failure).2.1).submissionCount = 3 ∧
    (checkRateLimit
        ((handleFormSubmit
            ((handleFormSubmit
                ((handleFormSubmit initialState goodInput 1000 1100
                    Outcome.failure).2.1)
                goodInput 2000 2100 Outcome.failure).2.1)
            goodInput 3000 3100 Outcome.failure).2.1)
        4000).1 = false :=
  ⟨by decide, by decide, by decide, by decide, by decide⟩

/-- C1 (amended): a transport call that throws (rejects) leaves the
rate-limit state (`submissionCount`, `lastSubmissionTime`) unchanged;
but a transport call that settles with a failure RESULT increments
`submissionCount` and updates `lastSubmissionTime` just as success
does, so after three failing submissions in a row within one window a
fourth submission in the same window is REJECTED by
`checkRateLimit`. -/
theorem transport_failure_rateLimit (st : NState) (nowDone : Int)
    (t1 d1 t2 d2 t3 d3 t4 : Int)
    (h1 : t1 ≤ d1) (h2 : d1 ≤ t2) (h3 : t2 ≤ d2) (h4 : d2 ≤ t3)
    (h5 : t3 ≤ d3) (h6 : d3 ≤ t4) (h7 : t4 - t1 ≤ 60000) :
    ((submitForm st nowDone Outcome.failure).2.submissionCount =
        st.submissionCount + 1 ∧
     (submitForm st nowDone Outcome.failure).2.lastSubmissionTime =
        nowDone) ∧
    ((submitForm st nowDone Outcome.thrown).2.submissionCount =
        st.submissionCount ∧
     (submitForm st nowDone Outcome.thrown).2.lastSubmissionTime =
        st.lastSubmissionTime) ∧
    (checkRateLimit
        ((handleFormSubmit
            ((handleFormSubmit
                ((handleFormSubmit initialState goodInput t1 d1
                    Outcome.failure).2.1)
                goodInput t2 d2 Outcome.failure).2.1)
            goodInput t3 d3 Outcome.failure).2.1)
        t4).1 = false := by
  refine ⟨⟨rfl, rfl⟩, ⟨rfl, rfl⟩, ?_⟩
  have e1 : handleFormSubmit initialState goodInput t1 d1
      Outcome.failure =
      (SubmitResult.apiError, (⟨false, d1, 1, 60000, 3⟩ : NState), 1) :=
    step_failure initialState t1 d1 rfl
      (checkRateLimit_accept_of_zero initialState t1 rfl (by decide))
  have e2 : handleFormSubmit (⟨false, d1, 1, 60000, 3⟩ : NState)
      goodInput t2 d2 Outcome.failure =
      (SubmitResult.apiError, (⟨false, d2, 2, 60000, 3⟩ : NState), 1) :=
    step_failure (⟨false, d1, 1, 60000, 3⟩ : NState) t2 d2 rfl
      (checkRateLimit_accept_of_recent (⟨false, d1, 1, 60000, 3⟩ : NState)
        t2 (by change t2 - d1 ≤ 60000; omega)
        (by change (1 : Nat) < 3; decide))
  have e3 : handleFormSubmit (⟨false, d2, 2, 60000, 3⟩ : NState)
      goodInput t3 d3 Outcome.failure =
      (SubmitResult.apiError, (⟨false, d3, 3, 60000, 3⟩ : NState), 1) :=
    step_failure (⟨false, d2, 2, 60000, 3⟩ : NState) t3 d3 rfl
      (checkRateLimit_accept_of_recent (⟨false, d2, 2, 60000, 3⟩ : NState)
        t3 (by change t3 - d2 ≤ 60000; omega)
        (by change (2 : Nat) < 3; decide))
  simp only [e1, e2, e3]
  rw [checkRateLimit_reject_of_recent (⟨false, d3, 3, 60000, 3⟩ : NState)
    t4 (by change t4 - d3 ≤ 60000; omega)
      (by change (3 : Nat) ≤ 3; decide)]

theorem transport_failure_rateLimit_witness :
    ((submitForm (⟨false, 7, 2, 60000, 3⟩ : NState) 9
        Outcome.failure).2.submissionCount = 3 ∧
     (submitForm (⟨false, 7, 2, 60000, 3⟩ : NState) 9
        Outcome.failure).2.lastSubmissionTime = 9) ∧
    ((submitForm (⟨false, 7, 2, 60000, 3⟩ : NState) 9
        Outcome.thrown).2.submissionCount = 2 ∧
     (submitForm (⟨false, 7, 2, 60000, 3⟩ : NState) 9
        Outcome.thrown).2.lastSubmissionTime = 7) ∧
    (checkRateLimit
        ((handleFormSubmit
            ((handleFormSubmit
                ((handleFormSubmit initialState goodInput 1000 1000
                    Outcome.failure).2.1)
                goodInput 2000 2000 Outcome.failure).2.1)
            goodInput 3000 3000 Outcome.failure).2.1)
        4000).1 = false :=
  transport_failure_rateLimit (⟨false, 7, 2, 60000, 3⟩ : NState) 9
    1000 1000 2000 2000 3000 3000 4000 (by decide) (by decide)
    (by decide) (by decide) (by decide) (by decide) (by decide)

end Newsletter
